import Mathlib

deriving instance DecidableEq for Except

/-!
Shallow embedding of the deployment-orchestration core of the
safe-global/deployment-scripts repository: the structured error types and
`formatError` (utils/errors), the `retry` utility with its default options
(utils/retry), the gas estimator (utils/gas), the deployment configuration
(utils/config), and the per-artifact deployment orchestrator `deployContract`
with its batch loop (the modules deployment script).

Effectful TypeScript code is embedded by passing the external world in
explicitly: RPC calls become oracle functions returning `Except`, thrown
JavaScript values become an error inductive, observable side effects
(transactions sent, files written, warnings printed) become an event list.
-/

/-- JavaScript values thrown by the deployment scripts.  The first five
constructors mirror the `DeploymentError` subclasses of utils/errors
(`NetworkError`, `TransactionError`, `GasEstimationError`,
`ConfigurationError`, `ValidationError`); `generic` is a plain `Error`
instance, `other` is a thrown non-`Error` value rendered by `String(...)`.
A `cause` is kept as the cause's `.message` string. -/
inductive JsError where
  | network (msg : String) (cause : Option String)
  | transaction (msg : String) (txHash : Option String) (cause : Option String)
  | gasEstimation (msg : String) (cause : Option String)
  | configuration (msg : String) (cause : Option String)
  | validation (msg : String) (field : Option String) (cause : Option String)
  | generic (msg : String)
  | other (val : String)
deriving DecidableEq, Repr

/-- Appends the `Caused by:` line of `formatError` when a cause is present. -/
def withCause (s : String) : Option String → String
  | some m => s ++ "\nCaused by: " ++ m
  | none => s

/-- `formatError` of utils/errors: `[CODE] message` (plus cause) for
`DeploymentError` instances, the message for plain `Error`s, `String(error)`
otherwise. -/
def formatError : JsError → String
  | .network msg c => withCause ("[NETWORK_ERROR] " ++ msg) c
  | .transaction msg _ c => withCause ("[TRANSACTION_ERROR] " ++ msg) c
  | .gasEstimation msg c => withCause ("[GAS_ESTIMATION_ERROR] " ++ msg) c
  | .configuration msg c => withCause ("[CONFIGURATION_ERROR] " ++ msg) c
  | .validation msg _ c => withCause ("[VALIDATION_ERROR] " ++ msg) c
  | .generic msg => msg
  | .other v => v

/-- The `.message` property of a thrown value modelled by `JsError`. -/
def jsMessageOf : JsError → String
  | .network msg _ => msg
  | .transaction msg _ _ => msg
  | .gasEstimation msg _ => msg
  | .configuration msg _ => msg
  | .validation msg _ _ => msg
  | .generic msg => msg
  | .other v => v

/-- `error instanceof Error ? error : undefined`, reduced to the cause
message recorded on a wrapping `DeploymentError`.  A thrown value may be
`undefined` (modelled as `none`), and a thrown non-`Error` gives no cause. -/
def causeOfThrown : Option JsError → Option String
  | some (.other _) => none
  | some e => some (jsMessageOf e)
  | none => none

/-- `formatError` applied to a possibly-`undefined` thrown value:
`String(undefined)` is `"undefined"`. -/
def formatErrorOpt : Option JsError → String
  | some e => formatError e
  | none => "undefined"

/-- Retry settings of `DEPLOYMENT_CONFIG.retries` in utils/config. -/
structure RetriesConfig where
  maxAttempts : Nat
  initialDelayMs : Nat
  maxDelayMs : Nat
  backoffMultiplier : Nat
deriving DecidableEq, Repr

/-- Gas settings of `DEPLOYMENT_CONFIG.gas` in utils/config. -/
structure GasConfig where
  defaultLimit : Nat
  warningThreshold : Nat
  maxLimit : Nat
deriving DecidableEq, Repr

/-- The parts of `DEPLOYMENT_CONFIG` the orchestration core reads. -/
structure DeploymentConfig where
  gas : GasConfig
  retries : RetriesConfig
  delaysBetweenDeployments : Nat
deriving DecidableEq, Repr

/-- `DEPLOYMENT_CONFIG` of utils/config (the fields used by the core). -/
def DEPLOYMENT_CONFIG : DeploymentConfig :=
  { gas := { defaultLimit := 5000000, warningThreshold := 3000000, maxLimit := 10000000 }
    retries := { maxAttempts := 3, initialDelayMs := 5000, maxDelayMs := 30000, backoffMultiplier := 2 }
    delaysBetweenDeployments := 1000 }

/-- Checks whether `pat` is a prefix of `s` (character lists). -/
def charsIsPfx : List Char → List Char → Bool
  | [], _ => true
  | _ :: _, [] => false
  | a :: as, b :: bs => a = b && charsIsPfx as bs

/-- Checks whether `pat` occurs as a contiguous substring of `s`
(character lists), modelling JavaScript `String.prototype.includes`. -/
def charsContains (pat : List Char) : List Char → Bool
  | [] => pat.isEmpty
  | c :: rest => charsIsPfx pat (c :: rest) || charsContains pat rest

/-- `s.includes(pat)` on strings. -/
def strIncludes (s pat : String) : Bool :=
  charsContains pat.toList s.toList

/-- The transient-failure message signatures of the default retryability
classifier in utils/retry. -/
def retryablePatterns : List String :=
  [ "network", "timeout", "connection", "econnreset", "etimedout", "eai_again",
    "rate limit", "too many requests", "service unavailable", "bad gateway",
    "gateway timeout" ]

/-- `DEFAULT_RETRY_OPTIONS.isRetryable` of utils/retry: `NetworkError`s are
retryable, `TransactionError`s are not, anything else is retryable when its
formatted message matches a known transient-failure signature. -/
def defaultIsRetryable (e : JsError) : Bool :=
  match e with
  | .network _ _ => true
  | .transaction _ _ _ => false
  | _ =>
    let m := (formatError e).toLower
    retryablePatterns.any (fun p => strIncludes m p)

/-- `DEFAULT_RETRY_OPTIONS.delayFn` of utils/retry: exponential backoff built
from the global `DEPLOYMENT_CONFIG.retries` values (not from the merged
per-call options). -/
def defaultDelayFn (attempt : Nat) : Nat :=
  min (DEPLOYMENT_CONFIG.retries.initialDelayMs *
        DEPLOYMENT_CONFIG.retries.backoffMultiplier ^ (attempt - 1))
    DEPLOYMENT_CONFIG.retries.maxDelayMs

/-- Caller-supplied `RetryOptions` of utils/retry; a `none` field is an
absent key, filled from `DEFAULT_RETRY_OPTIONS` by the spread merge. -/
structure RetryOptions where
  maxAttempts : Option Int := none
  initialDelayMs : Option Nat := none
  maxDelayMs : Option Nat := none
  backoffMultiplier : Option Nat := none
  isRetryable : Option (JsError → Bool) := none
  delayFn : Option (Nat → Nat) := none

/-- The options record after `{ ...DEFAULT_RETRY_OPTIONS, ...options }`. -/
structure MergedRetryOptions where
  maxAttempts : Int
  initialDelayMs : Nat
  maxDelayMs : Nat
  backoffMultiplier : Nat
  isRetryable : JsError → Bool
  delayFn : Option (Nat → Nat)

/-- `{ ...DEFAULT_RETRY_OPTIONS, ...options }`: every absent caller field is
taken from the defaults; in particular the default `delayFn` is present, so
the merged `delayFn` is always set. -/
def mergeRetryOptions (o : RetryOptions) : MergedRetryOptions :=
  { maxAttempts := o.maxAttempts.getD (Int.ofNat DEPLOYMENT_CONFIG.retries.maxAttempts)
    initialDelayMs := o.initialDelayMs.getD DEPLOYMENT_CONFIG.retries.initialDelayMs
    maxDelayMs := o.maxDelayMs.getD DEPLOYMENT_CONFIG.retries.maxDelayMs
    backoffMultiplier := o.backoffMultiplier.getD DEPLOYMENT_CONFIG.retries.backoffMultiplier
    isRetryable := o.isRetryable.getD defaultIsRetryable
    delayFn := some (o.delayFn.getD defaultDelayFn) }

/-- The delay computed inside `retry` before sleeping: the merged `delayFn`
applied to the attempt number if present, otherwise exponential backoff from
the merged options, then clamped by the merged `maxDelayMs`. -/
def computeDelay (opts : MergedRetryOptions) (attempt : Nat) : Nat :=
  let delay :=
    match opts.delayFn with
    | some f => f attempt
    | none => opts.initialDelayMs * opts.backoffMultiplier ^ (attempt - 1)
  min delay opts.maxDelayMs

/-- Observable trace of one `retry(fn, options)` call: how many times `fn`
was invoked, the delays slept between attempts, and the final outcome.  A
thrown `undefined` (the uninitialized `lastError`) is `Except.error none`. -/
structure RetryTrace (T : Type) where
  invocations : Nat
  delays : List Nat
  outcome : Except (Option JsError) T
deriving Repr

/-- The attempt loop of `retry` in utils/retry.  `behavior k` is the result
of the k-th invocation of `fn` (attempts are numbered from 1); `fuel` is the
number of attempts still allowed.  Exhausting the loop without any attempt
falls through to `throw lastError` with `lastError` still `undefined`. -/
def retryAux {T : Type} (behavior : Nat → Except JsError T)
    (opts : MergedRetryOptions) : Nat → Nat → RetryTrace T
  | _, 0 => ⟨0, [], .error none⟩
  | attempt, fuel + 1 =>
    match behavior attempt with
    | .ok v => ⟨1, [], .ok v⟩
    | .error e =>
      if !(opts.isRetryable e) then ⟨1, [], .error (some e)⟩
      else if fuel = 0 then ⟨1, [], .error (some e)⟩
      else
        let d := computeDelay opts attempt
        let rest := retryAux behavior opts (attempt + 1) fuel
        ⟨rest.invocations + 1, d :: rest.delays, rest.outcome⟩

/-- `retry(fn, options)` of utils/retry, as a trace over the behavior of
`fn`: merges the options with the defaults and runs the attempt loop
`for (attempt = 1; attempt <= maxAttempts; attempt++)`. -/
def retryRun {T : Type} (behavior : Nat → Except JsError T)
    (options : RetryOptions) : RetryTrace T :=
  let opts := mergeRetryOptions options
  retryAux behavior opts 1 opts.maxAttempts.toNat

/-- Warning levels of a gas estimate (utils/gas `GasEstimate.warning`). -/
inductive GasWarning where
  | high
  | critical
deriving DecidableEq, Repr

/-- `GasEstimate` of utils/gas. -/
structure GasEstimate where
  gas : Nat
  gasPrice : Nat
  estimatedCost : Nat
  warning : Option GasWarning
deriving DecidableEq, Repr

/-- The retry options both `estimateDeploymentGas` and `getGasPrice` pass to
`retry` in utils/gas: `{ maxAttempts: 3, initialDelayMs: 1000 }`. -/
def gasRetryOptions : RetryOptions :=
  { maxAttempts := some 3, initialDelayMs := some 1000 }

/-- `getGasPriceFallback` of utils/gas: 20 gwei in wei. -/
def getGasPriceFallback : Nat := 20000000000

/-- `getGasPrice` of utils/gas over the behavior of
`publicClient.getGasPrice()`: the retried lookup's value, or the fixed
fallback price when the lookup still fails after retries. -/
def getGasPrice (priceBehavior : Nat → Except JsError Nat) : Nat :=
  match (retryRun priceBehavior gasRetryOptions).outcome with
  | .ok p => p
  | .error _ => getGasPriceFallback

/-- The warning computation of `estimateDeploymentGas` in utils/gas. -/
def gasWarning (gas : Nat) : Option GasWarning :=
  if gas > DEPLOYMENT_CONFIG.gas.maxLimit then some .critical
  else if gas > DEPLOYMENT_CONFIG.gas.warningThreshold then some .high
  else none

/-- `estimateDeploymentGas` of utils/gas over the behaviors of
`estimateGasFn` and the optional `publicClient`'s gas-price call: retries the
gas estimate, obtains a price (from the client with fallback, or the fallback
directly when no client is given), and returns the estimate with cost and
warning; any failure is wrapped into a `GasEstimationError`. -/
def estimateDeploymentGas (estimateGasFn : Nat → Except JsError Nat)
    (publicClient : Option (Nat → Except JsError Nat)) : Except JsError GasEstimate :=
  match (retryRun estimateGasFn gasRetryOptions).outcome with
  | .error e =>
    .error (.gasEstimation ("Failed to estimate gas: " ++ formatErrorOpt e) (causeOfThrown e))
  | .ok gas =>
    let gasPrice :=
      match publicClient with
      | some pb => getGasPrice pb
      | none => getGasPriceFallback
    .ok { gas := gas, gasPrice := gasPrice, estimatedCost := gas * gasPrice,
          warning := gasWarning gas }

/-- Receipt status as inspected by the orchestrator
(`receipt.status === "success"`). -/
inductive TxStatus where
  | success
  | failed
deriving DecidableEq, Repr

/-- The fields of a transaction receipt the orchestrator reads. -/
structure Receipt where
  status : TxStatus
  blockNumber : Nat
  gasUsed : Nat
  contractAddress : Option String
deriving DecidableEq, Repr

/-- `DeploymentData` of the modules deployment script: one artifact loaded
from JSON.  `toAddr` embeds the JSON field `to` (a reserved token here). -/
structure DeploymentData where
  toAddr : String
  data : String
  expectedAddress : Option String := none
  codeHash : Option String := none
deriving DecidableEq, Repr

/-- `DeploymentResult` of the modules deployment script. -/
structure DeploymentResult where
  contractName : String
  success : Bool
  txHash : Option String := none
  contractAddress : Option String := none
  expectedAddress : Option String := none
  blockNumber : Option Nat := none
  gasUsed : Option Nat := none
  error : Option String := none
deriving DecidableEq, Repr

/-- The RPC world one `deployContract` call interacts with.  `getBytecode`
takes a read index (0 for the pre-submission existence check, 1 for the
post-receipt verification read) so the chain may change between the two
reads. -/
structure DeployEnv where
  getBytecode : Nat → String → Except JsError (Option String)
  sendTransaction : String → String → Except JsError String
  waitForReceipt : String → Except JsError Receipt

/-- Observable side effects of one `deployContract` call: the transaction
submission, the durable record written by `saveDeploymentTransaction`, and
the `console.warn` diagnostics. -/
inductive DeployEvent where
  | txSent (contractName toAddr data : String)
  | saveDeployment (contractName txHash : String) (blockNumber : Nat)
      (contractAddress : Option String) (expectedAddress : Option String)
      (gasUsed : Option Nat)
  | warnExistenceCheckFailed (msg : String)
  | warnAddressMismatch (expected actual : String)
  | warnNoBytecodeAtExpected (addr : String)
  | warnVerificationFailed (msg : String)
  | warnNoContractAddress
deriving DecidableEq, Repr

/-- `existingBytecode && existingBytecode !== "0x"`: viem's `getBytecode`
returns `undefined` (falsy) or a hex string, and `""` is falsy. -/
def isNonEmptyBytecode : Option String → Bool
  | none => false
  | some s => !(s == "") && !(s == "0x")

/-- Steps 2-5 of `deployContract` (submission, confirmation, address
resolution, persistence), entered when the artifact was not found already
deployed.  Errors of `sendTransaction` / `waitForTransactionReceipt` are the
outer catch: the result collected so far is kept (in particular `txHash`),
`success` is forced `false` and `error` is the formatted thrown value. -/
def submitPhase (env : DeployEnv) (d : DeploymentData)
    (contractName : String) : DeploymentResult × List DeployEvent :=
  let r0 : DeploymentResult :=
    { contractName := contractName, success := false, expectedAddress := d.expectedAddress }
  match env.sendTransaction d.toAddr d.data with
  | .error e => ({ r0 with error := some (formatError e) }, [])
  | .ok hash =>
    let r1 := { r0 with txHash := some hash }
    let evs1 := [DeployEvent.txSent contractName d.toAddr d.data]
    match env.waitForReceipt hash with
    | .error e => ({ r1 with error := some (formatError e) }, evs1)
    | .ok receipt =>
      let r2 := { r1 with blockNumber := some receipt.blockNumber,
                          gasUsed := some receipt.gasUsed }
      match receipt.status with
      | .failed => ({ r2 with error := some "Transaction failed" }, evs1)
      | .success =>
        let resolved : DeploymentResult × List DeployEvent :=
          match d.expectedAddress with
          | some addr =>
            match env.getBytecode 1 addr with
            | .ok ob =>
              if isNonEmptyBytecode ob then
                let mismatchEvs :=
                  match receipt.contractAddress with
                  | some ra =>
                    if ra.toLower = addr.toLower then []
                    else [DeployEvent.warnAddressMismatch addr ra]
                  | none => []
                ({ r2 with success := true, contractAddress := some addr }, mismatchEvs)
              else
                ({ r2 with success := true, contractAddress := some addr },
                 [DeployEvent.warnNoBytecodeAtExpected addr])
            | .error e =>
              ({ r2 with success := true, contractAddress := some addr },
               [DeployEvent.warnVerificationFailed (formatError e)])
          | none =>
            match receipt.contractAddress with
            | some ra => ({ r2 with success := true, contractAddress := some ra }, [])
            | none => ({ r2 with success := true }, [DeployEvent.warnNoContractAddress])
        let savedAddr :=
          match resolved.1.contractAddress with
          | some a => some a
          | none => d.expectedAddress
        (resolved.1,
         evs1 ++ resolved.2 ++
           [DeployEvent.saveDeployment contractName hash receipt.blockNumber
              savedAddr d.expectedAddress (some receipt.gasUsed)])

/-- `deployContract` of the modules deployment script: the idempotency check
at `expectedAddress` (non-empty bytecode means already deployed: success with
no transaction; a failing read warns and proceeds), then submission,
confirmation, address resolution and persistence via `submitPhase`. -/
def deployContract (env : DeployEnv) (d : DeploymentData)
    (contractName : String) : DeploymentResult × List DeployEvent :=
  match d.expectedAddress with
  | some addr =>
    match env.getBytecode 0 addr with
    | .ok ob =>
      if isNonEmptyBytecode ob then
        ({ contractName := contractName, success := true,
           contractAddress := some addr, expectedAddress := some addr }, [])
      else
        submitPhase env d contractName
    | .error e =>
      let p := submitPhase env d contractName
      (p.1, DeployEvent.warnExistenceCheckFailed (formatError e) :: p.2)
  | none => submitPhase env d contractName

/-- The `main` deployment loop of the modules script from artifact index `i`
on: each artifact is processed by `deployContract` with its own view of the
world, and its result is appended in order.  `deployContract` never throws
(its body is wrapped in the catch), so the loop always reaches every
artifact. -/
def deployBatchFrom (env : Nat → DeployEnv) (i : Nat) :
    List (String × DeploymentData) → List (DeploymentResult × List DeployEvent)
  | [] => []
  | a :: rest => deployContract (env i) a.2 a.1 :: deployBatchFrom env (i + 1) rest

/-- `deployBatch`: the whole deployment loop over an ordered artifact list,
returning one result (with its events) per artifact, in order. -/
def deployBatch (env : Nat → DeployEnv)
    (artifacts : List (String × DeploymentData)) :
    List (DeploymentResult × List DeployEvent) :=
  deployBatchFrom env 0 artifacts

/-- The existence-check outcome: `true` when the artifact has an expected
address whose pre-submission bytecode read returns non-empty bytecode. -/
def alreadyDeployedCheck (env : DeployEnv) (d : DeploymentData) : Bool :=
  match d.expectedAddress with
  | some addr =>
    match env.getBytecode 0 addr with
    | .ok ob => isNonEmptyBytecode ob
    | .error _ => false
  | none => false

/-- Is this event a transaction submission? -/
def isTxSentEvent : DeployEvent → Bool
  | .txSent _ _ _ => true
  | _ => false

/-- Is this event a durable record written by `saveDeploymentTransaction`? -/
def isSaveEvent : DeployEvent → Bool
  | .saveDeployment _ _ _ _ _ _ => true
  | _ => false

/-- An operation that fails every attempt with a retryable error is attempted
exactly `fuel` times and the trace ends with the last attempt's error. -/
lemma retryAux_all_fail {T : Type} (behavior : Nat → Except JsError T)
    (opts : MergedRetryOptions) (errs : Nat → JsError)
    (hb : ∀ k, behavior k = .error (errs k))
    (hr : ∀ k, opts.isRetryable (errs k) = true) :
    ∀ (fuel attempt : Nat), 1 ≤ fuel →
      (retryAux behavior opts attempt fuel).invocations = fuel ∧
      (retryAux behavior opts attempt fuel).outcome = .error (some (errs (attempt + fuel - 1))) := by
  intro fuel
  induction fuel with
  | zero => intro attempt h; omega
  | succ f ih =>
    intro attempt _
    simp only [retryAux, hb attempt, hr attempt, Bool.not_true, Bool.false_eq_true, if_false]
    cases f with
    | zero => simp
    | succ g =>
      have hrec := ih (attempt + 1) (by omega)
      simp only [Nat.succ_ne_zero, if_false]
      refine ⟨by simpa using hrec.1, ?_⟩
      show (retryAux behavior opts (attempt + 1) (g + 1)).outcome = _
      rw [hrec.2]
      have harith : attempt + 1 + (g + 1) - 1 = attempt + (g + 1 + 1) - 1 := by omega
      rw [harith]

/-- C4: an always-failing retryable operation is invoked exactly
`maxAttempts` times and `retry` finally throws the last invocation's error; a
non-retryable failure on the first attempt causes exactly one invocation and
is re-thrown immediately. -/
theorem retry_exhaustion_and_short_circuit :
    (∀ (T : Type) (behavior : Nat → Except JsError T) (o : RetryOptions)
        (n : Nat) (errs : Nat → JsError),
       (mergeRetryOptions o).maxAttempts = Int.ofNat n → 1 ≤ n →
       (∀ k, behavior k = .error (errs k)) →
       (∀ k, (mergeRetryOptions o).isRetryable (errs k) = true) →
       (retryRun behavior o).invocations = n ∧
       (retryRun behavior o).outcome = .error (some (errs n))) ∧
    (∀ (T : Type) (behavior : Nat → Except JsError T) (o : RetryOptions) (e : JsError),
       behavior 1 = .error e →
       (mergeRetryOptions o).isRetryable e = false →
       1 ≤ (mergeRetryOptions o).maxAttempts →
       (retryRun behavior o).invocations = 1 ∧
       (retryRun behavior o).outcome = .error (some e)) := by
  constructor
  · intro T behavior o n errs hmax hn hb hr
    have h := retryAux_all_fail behavior (mergeRetryOptions o) errs hb hr n 1 hn
    have htn : (mergeRetryOptions o).maxAttempts.toNat = n := by rw [hmax]; rfl
    rw [retryRun, htn]
    refine ⟨h.1, ?_⟩
    rw [h.2]
    have harith : 1 + n - 1 = n := by omega
    rw [harith]
  · intro T behavior o e hb hnr hpos
    have hfuel : ∃ m, (mergeRetryOptions o).maxAttempts.toNat = m + 1 := by
      refine ⟨(mergeRetryOptions o).maxAttempts.toNat - 1, ?_⟩
      omega
    obtain ⟨m, hm⟩ := hfuel
    rw [retryRun, hm]
    simp [retryAux, hb, hnr]

/-- Witness for the retry exhaustion and short-circuit theorem at concrete
behaviors: three network failures exhaust the default three attempts, and a
transaction failure stops after one attempt. -/
theorem retry_exhaustion_and_short_circuit_witness :
    ((retryRun (fun _ => .error (.network "boom" none) : Nat → Except JsError Nat) {}).invocations = 3 ∧
     (retryRun (fun _ => .error (.network "boom" none) : Nat → Except JsError Nat) {}).outcome =
       .error (some (.network "boom" none))) ∧
    ((retryRun (fun _ => .error (.transaction "tx failed" none none) : Nat → Except JsError Nat) {}).invocations = 1 ∧
     (retryRun (fun _ => .error (.transaction "tx failed" none none) : Nat → Except JsError Nat) {}).outcome =
       .error (some (.transaction "tx failed" none none))) :=
  ⟨retry_exhaustion_and_short_circuit.1 Nat _ {} 3 (fun _ => .network "boom" none)
      rfl (by decide) (fun _ => rfl) (fun _ => rfl),
   retry_exhaustion_and_short_circuit.2 Nat _ {} (.transaction "tx failed" none none)
      rfl rfl (by decide)⟩

/-- C10: when the effective `maxAttempts` is zero or negative, the attempt
loop never runs, the operation is never invoked, and `retry` falls through to
`throw lastError` with `lastError` still `undefined`. -/
theorem retry_nonpositive_max_attempts (T : Type) (behavior : Nat → Except JsError T)
    (o : RetryOptions) (h : (mergeRetryOptions o).maxAttempts ≤ 0) :
    (retryRun behavior o).invocations = 0 ∧
    (retryRun behavior o).delays = [] ∧
    (retryRun behavior o).outcome = .error none := by
  have h0 : (mergeRetryOptions o).maxAttempts.toNat = 0 := by omega
  rw [retryRun, h0]
  exact ⟨rfl, rfl, rfl⟩

/-- Witness for the nonpositive `maxAttempts` theorem: `maxAttempts = 0`
never invokes an always-succeeding operation and throws `undefined`. -/
theorem retry_nonpositive_max_attempts_witness :
    (retryRun (fun _ => .ok 42 : Nat → Except JsError Nat) { maxAttempts := some 0 }).invocations = 0 ∧
    (retryRun (fun _ => .ok 42 : Nat → Except JsError Nat) { maxAttempts := some 0 }).delays = [] ∧
    (retryRun (fun _ => .ok 42 : Nat → Except JsError Nat) { maxAttempts := some 0 }).outcome = .error none :=
  retry_nonpositive_max_attempts Nat _ { maxAttempts := some 0 } (by decide)

/-- A gas-estimation style operation failing every attempt with a network
timeout. -/
def alwaysNetworkTimeout : Nat → Except JsError Nat :=
  fun _ => .error (.network "connection timeout" none)

/-- C3 (divergence witness): the gas estimator's retry call passes
`{ maxAttempts: 3, initialDelayMs: 1000 }`, yet the delays actually slept are
5000 ms and 10000 ms — the merged options keep the default `delayFn`, which
reads `DEPLOYMENT_CONFIG.retries` (5000 ms initial, multiplier 2) and ignores
the caller-supplied `initialDelayMs`; the claimed first delay would be
`min(1000 * 2^0, 30000) = 1000` ms. -/
theorem retry_delay_ignores_caller_options :
    (retryRun alwaysNetworkTimeout gasRetryOptions).invocations = 3 ∧
    (retryRun alwaysNetworkTimeout gasRetryOptions).delays = [5000, 10000] ∧
    min (1000 * 2 ^ (1 - 1)) 30000 = 1000 := by
  refine ⟨rfl, rfl, by norm_num⟩

/-- C8: every successful gas estimate carries `warning = critical` exactly
when gas exceeds the 10000000 maximum limit, `warning = high` exactly when
gas exceeds the 3000000 warning threshold without exceeding the maximum, no
warning otherwise (boundary values included), and
`estimatedCost = gas * gasPrice` exactly. -/
theorem gas_warning_thresholds (estB : Nat → Except JsError Nat)
    (pc : Option (Nat → Except JsError Nat)) (est : GasEstimate)
    (h : estimateDeploymentGas estB pc = .ok est) :
    ((est.warning = some .critical) ↔ 10000000 < est.gas) ∧
    ((est.warning = some .high) ↔ (3000000 < est.gas ∧ est.gas ≤ 10000000)) ∧
    ((est.warning = none) ↔ est.gas ≤ 3000000) ∧
    est.estimatedCost = est.gas * est.gasPrice := by
  rcases houtcome : (retryRun estB gasRetryOptions).outcome with oe | gas
  · simp only [estimateDeploymentGas, houtcome] at h
    exact Except.noConfusion h
  · simp only [estimateDeploymentGas, houtcome, Except.ok.injEq] at h
    subst h
    simp only [gasWarning, DEPLOYMENT_CONFIG]
    refine ⟨?_, ?_, ?_, by trivial⟩ <;> split_ifs with h1 h2 <;> simp_all <;> omega

/-- The gas estimate produced at the exact warning-threshold boundary
`gas = maxLimit`. -/
def estBoundary : GasEstimate :=
  { gas := 10000000, gasPrice := 20000000000,
    estimatedCost := 200000000000000000, warning := some .high }

/-- Witness for the gas warning thresholds at the boundary `gas = maxLimit`:
the estimate gets `warning = high`, not `critical`. -/
theorem gas_warning_thresholds_witness :
    ((estBoundary.warning = some .critical) ↔ 10000000 < estBoundary.gas) ∧
    ((estBoundary.warning = some .high) ↔ (3000000 < estBoundary.gas ∧ estBoundary.gas ≤ 10000000)) ∧
    ((estBoundary.warning = none) ↔ estBoundary.gas ≤ 3000000) ∧
    estBoundary.estimatedCost = estBoundary.gas * estBoundary.gasPrice :=
  gas_warning_thresholds (fun _ => .ok 10000000) none estBoundary rfl

/-- C9: when the estimate retry succeeds but the gas-price lookup still fails
after its retries, the estimate succeeds anyway with the fixed 20 gwei
default price (the price failure never propagates); when the estimate retry
itself fails, `estimateDeploymentGas` returns a structured
`GasEstimationError` and produces no estimate at all (no default gas). -/
theorem gas_price_fallback_and_estimate_fatal :
    (∀ (estB pc : Nat → Except JsError Nat) (gas : Nat),
       (retryRun estB gasRetryOptions).outcome = .ok gas →
       (∃ oe, (retryRun pc gasRetryOptions).outcome = .error oe) →
       estimateDeploymentGas estB (some pc) =
         .ok { gas := gas, gasPrice := 20000000000,
               estimatedCost := gas * 20000000000, warning := gasWarning gas }) ∧
    (∀ (estB : Nat → Except JsError Nat) (pc : Option (Nat → Except JsError Nat))
        (oe : Option JsError),
       (retryRun estB gasRetryOptions).outcome = .error oe →
       estimateDeploymentGas estB pc =
         .error (.gasEstimation ("Failed to estimate gas: " ++ formatErrorOpt oe)
           (causeOfThrown oe))) := by
  constructor
  · intro estB pc gas hest hpc
    obtain ⟨oe, hoe⟩ := hpc
    simp only [estimateDeploymentGas, hest, getGasPrice, hoe]
    rfl
  · intro estB pc oe hest
    simp only [estimateDeploymentGas, hest]

/-- Witness for the gas-price fallback and fatal-estimate theorem: a
successful 21000-gas estimate with an always-failing price lookup falls back
to 20 gwei, and an always-failing estimate surfaces a `GasEstimationError`. -/
theorem gas_price_fallback_and_estimate_fatal_witness :
    (estimateDeploymentGas (fun _ => .ok 21000) (some alwaysNetworkTimeout) =
      .ok { gas := 21000, gasPrice := 20000000000,
            estimatedCost := 21000 * 20000000000, warning := gasWarning 21000 }) ∧
    (estimateDeploymentGas alwaysNetworkTimeout none =
      .error (.gasEstimation
        ("Failed to estimate gas: " ++ formatErrorOpt (some (.network "connection timeout" none)))
        (causeOfThrown (some (.network "connection timeout" none))))) :=
  ⟨gas_price_fallback_and_estimate_fatal.1 (fun _ => .ok 21000) alwaysNetworkTimeout 21000
      rfl ⟨some (.network "connection timeout" none), rfl⟩,
   gas_price_fallback_and_estimate_fatal.2 alwaysNetworkTimeout none
      (some (.network "connection timeout" none)) rfl⟩

/-- Exhaustive case analysis of `submitPhase`: a send failure, a confirmation
failure, a failed receipt, or a confirmed success; each with the exact result
record and event list. -/
lemma submitPhase_shape (env : DeployEnv) (d : DeploymentData) (name : String) :
    (∃ e, env.sendTransaction d.toAddr d.data = .error e ∧
      submitPhase env d name =
        ({ contractName := name, success := false, expectedAddress := d.expectedAddress,
           error := some (formatError e) }, [])) ∨
    (∃ hash e, env.sendTransaction d.toAddr d.data = .ok hash ∧
      env.waitForReceipt hash = .error e ∧
      submitPhase env d name =
        ({ contractName := name, success := false, txHash := some hash,
           expectedAddress := d.expectedAddress, error := some (formatError e) },
         [DeployEvent.txSent name d.toAddr d.data])) ∨
    (∃ hash receipt, env.sendTransaction d.toAddr d.data = .ok hash ∧
      env.waitForReceipt hash = .ok receipt ∧ receipt.status = .failed ∧
      submitPhase env d name =
        ({ contractName := name, success := false, txHash := some hash,
           expectedAddress := d.expectedAddress, blockNumber := some receipt.blockNumber,
           gasUsed := some receipt.gasUsed, error := some "Transaction failed" },
         [DeployEvent.txSent name d.toAddr d.data])) ∨
    (∃ hash receipt ca evs2, env.sendTransaction d.toAddr d.data = .ok hash ∧
      env.waitForReceipt hash = .ok receipt ∧ receipt.status = .success ∧
      (d.expectedAddress.isSome = true → ca = d.expectedAddress) ∧
      (∀ ev ∈ evs2, isSaveEvent ev = false ∧ isTxSentEvent ev = false) ∧
      submitPhase env d name =
        ({ contractName := name, success := true, txHash := some hash,
           contractAddress := ca, expectedAddress := d.expectedAddress,
           blockNumber := some receipt.blockNumber, gasUsed := some receipt.gasUsed },
         DeployEvent.txSent name d.toAddr d.data :: evs2 ++
           [DeployEvent.saveDeployment name hash receipt.blockNumber
              (match ca with | some a => some a | none => d.expectedAddress)
              d.expectedAddress (some receipt.gasUsed)])) := by
  cases hsend : env.sendTransaction d.toAddr d.data with
  | error e =>
    exact Or.inl ⟨e, rfl, by simp [submitPhase, hsend]⟩
  | ok hash =>
    cases hwait : env.waitForReceipt hash with
    | error e =>
      exact Or.inr (Or.inl ⟨hash, e, rfl, hwait, by simp [submitPhase, hsend, hwait]⟩)
    | ok receipt =>
      cases hstat : receipt.status with
      | failed =>
        exact Or.inr (Or.inr (Or.inl ⟨hash, receipt, rfl, hwait, hstat,
          by simp [submitPhase, hsend, hwait, hstat]⟩))
      | success =>
        cases hEA : d.expectedAddress with
        | none =>
          cases hca : receipt.contractAddress with
          | none =>
            refine Or.inr (Or.inr (Or.inr ⟨hash, receipt, none,
              [DeployEvent.warnNoContractAddress], rfl, hwait, hstat, ?_, ?_, ?_⟩))
            · intro _; rfl
            · intro ev hev; simp at hev; subst hev; exact ⟨rfl, rfl⟩
            · simp [submitPhase, hsend, hwait, hstat, hEA, hca]
          | some ra =>
            refine Or.inr (Or.inr (Or.inr ⟨hash, receipt, some ra, [], rfl, hwait, hstat, ?_, ?_, ?_⟩))
            · intro h; simp at h
            · intro ev hev; simp at hev
            · simp [submitPhase, hsend, hwait, hstat, hEA, hca]
        | some addr =>
          cases hbc : env.getBytecode 1 addr with
          | error e =>
            refine Or.inr (Or.inr (Or.inr ⟨hash, receipt, some addr,
              [DeployEvent.warnVerificationFailed (formatError e)], rfl, hwait, hstat, ?_, ?_, ?_⟩))
            · intro _; rfl
            · intro ev hev; simp at hev; subst hev; exact ⟨rfl, rfl⟩
            · simp [submitPhase, hsend, hwait, hstat, hEA, hbc]
          | ok ob =>
            by_cases hne : isNonEmptyBytecode ob = true
            · cases hca : receipt.contractAddress with
              | none =>
                refine Or.inr (Or.inr (Or.inr ⟨hash, receipt, some addr, [], rfl, hwait, hstat, ?_, ?_, ?_⟩))
                · intro _; rfl
                · intro ev hev; simp at hev
                · simp [submitPhase, hsend, hwait, hstat, hEA, hbc, hne, hca]
              | some ra =>
                by_cases hlow : ra.toLower = addr.toLower
                · refine Or.inr (Or.inr (Or.inr ⟨hash, receipt, some addr, [], rfl, hwait, hstat, ?_, ?_, ?_⟩))
                  · intro _; rfl
                  · intro ev hev; simp at hev
                  · simp [submitPhase, hsend, hwait, hstat, hEA, hbc, hne, hca, hlow]
                · refine Or.inr (Or.inr (Or.inr ⟨hash, receipt, some addr,
                    [DeployEvent.warnAddressMismatch addr ra], rfl, hwait, hstat, ?_, ?_, ?_⟩))
                  · intro _; rfl
                  · intro ev hev; simp at hev; subst hev; exact ⟨rfl, rfl⟩
                  · simp [submitPhase, hsend, hwait, hstat, hEA, hbc, hne, hca, hlow]
            · refine Or.inr (Or.inr (Or.inr ⟨hash, receipt, some addr,
                [DeployEvent.warnNoBytecodeAtExpected addr], rfl, hwait, hstat, ?_, ?_, ?_⟩))
              · intro _; rfl
              · intro ev hev; simp at hev; subst hev; exact ⟨rfl, rfl⟩
              · simp [submitPhase, hsend, hwait, hstat, hEA, hbc, hne]

/-- Exhaustive case analysis of `deployContract`: either the idempotency
check finds the contract already deployed (early success, no events), or the
call defers to `submitPhase`, possibly prefixed by a non-save, non-send
warning event. -/
lemma deployContract_shape (env : DeployEnv) (d : DeploymentData) (name : String) :
    (∃ addr ob, d.expectedAddress = some addr ∧ env.getBytecode 0 addr = .ok ob ∧
      isNonEmptyBytecode ob = true ∧
      deployContract env d name =
        ({ contractName := name, success := true, contractAddress := some addr,
           expectedAddress := some addr }, [])) ∨
    (∃ evs0, (∀ ev ∈ evs0, isSaveEvent ev = false ∧ isTxSentEvent ev = false) ∧
      deployContract env d name =
        ((submitPhase env d name).1, evs0 ++ (submitPhase env d name).2)) := by
  cases hEA : d.expectedAddress with
  | none =>
    exact Or.inr ⟨[], by simp, by simp [deployContract, hEA]⟩
  | some addr =>
    cases hbc : env.getBytecode 0 addr with
    | error e =>
      refine Or.inr ⟨[DeployEvent.warnExistenceCheckFailed (formatError e)], ?_, ?_⟩
      · intro ev hev; simp at hev; subst hev; exact ⟨rfl, rfl⟩
      · simp [deployContract, hEA, hbc]
    | ok ob =>
      by_cases hne : isNonEmptyBytecode ob = true
      · exact Or.inl ⟨addr, ob, rfl, hbc, hne, by simp [deployContract, hEA, hbc, hne]⟩
      · exact Or.inr ⟨[], by simp, by simp [deployContract, hEA, hbc, hne]⟩

/-- In `submitPhase` a durable record is written exactly when the result is a
confirmed success (which always carries a transaction hash). -/
lemma submitPhase_save_iff (env : DeployEnv) (d : DeploymentData) (name : String) :
    (submitPhase env d name).2.any isSaveEvent =
      ((submitPhase env d name).1.success && ((submitPhase env d name).1.txHash).isSome) := by
  rcases submitPhase_shape env d name with
    ⟨e, _, heq⟩ | ⟨hash, e, _, _, heq⟩ | ⟨hash, receipt, _, _, _, heq⟩ |
    ⟨hash, receipt, ca, evs2, _, _, _, _, hevs, heq⟩
  · rw [heq]; rfl
  · rw [heq]; rfl
  · rw [heq]; rfl
  · rw [heq]
    simp only [List.any_cons, List.any_append]
    have h2 : evs2.any isSaveEvent = false := by
      rw [List.any_eq_false]
      intro ev hev
      simp [(hevs ev hev).1]
    simp [h2, isSaveEvent, isTxSentEvent]

/-- In `deployContract` a durable record is written exactly when the result
is a success that went through an actual submitted transaction. -/
lemma deployContract_save_iff (env : DeployEnv) (d : DeploymentData) (name : String) :
    (deployContract env d name).2.any isSaveEvent =
      ((deployContract env d name).1.success && ((deployContract env d name).1.txHash).isSome) := by
  rcases deployContract_shape env d name with ⟨addr, ob, _, _, _, heq⟩ | ⟨evs0, hevs0, heq⟩
  · rw [heq]; rfl
  · rw [heq]
    simp only [List.any_append]
    have h0 : evs0.any isSaveEvent = false := by
      rw [List.any_eq_false]
      intro ev hev
      simp [(hevs0 ev hev).1]
    rw [h0]
    simp [submitPhase_save_iff env d name]

/-- The deployment loop produces exactly one result per artifact. -/
lemma deployBatchFrom_length (env : Nat → DeployEnv) :
    ∀ (l : List (String × DeploymentData)) (i : Nat),
      (deployBatchFrom env i l).length = l.length := by
  intro l
  induction l with
  | nil => intro i; rfl
  | cons a rest ih => intro i; simp [deployBatchFrom, ih (i + 1)]

/-- The j-th result of the deployment loop is `deployContract` applied to the
j-th artifact. -/
lemma deployBatchFrom_get (env : Nat → DeployEnv) :
    ∀ (l : List (String × DeploymentData)) (i j : Nat) (h : j < l.length)
      (h2 : j < (deployBatchFrom env i l).length),
      (deployBatchFrom env i l).get ⟨j, h2⟩ =
        deployContract (env (i + j)) (l.get ⟨j, h⟩).2 (l.get ⟨j, h⟩).1 := by
  intro l
  induction l with
  | nil => intro i j h; simp at h
  | cons a rest ih =>
    intro i j h h2
    cases j with
    | zero => simp [deployBatchFrom]
    | succ k =>
      have hk : k < rest.length := by simpa using h
      have hk2 : k < (deployBatchFrom env (i + 1) rest).length := by
        rw [deployBatchFrom_length]; exact hk
      have := ih (i + 1) k hk hk2
      simp only [deployBatchFrom, List.get_cons_succ]
      rw [this]
      have harith : i + 1 + k = i + (k + 1) := by omega
      rw [harith]

/-- A failed `submitPhase` result always carries an error message. -/
lemma submitPhase_error_of_failure (env : DeployEnv) (d : DeploymentData) (name : String)
    (h : (submitPhase env d name).1.success = false) :
    ((submitPhase env d name).1.error).isSome = true := by
  rcases submitPhase_shape env d name with
    ⟨e, _, heq⟩ | ⟨hash, e, _, _, heq⟩ | ⟨hash, receipt, _, _, _, heq⟩ |
    ⟨hash, receipt, ca, evs2, _, _, _, _, _, heq⟩
  · rw [heq]; rfl
  · rw [heq]; rfl
  · rw [heq]; rfl
  · rw [heq] at h; exact absurd h (by simp)

/-- A successful `submitPhase` result resolves a contract address whenever an
expected address was supplied. -/
lemma submitPhase_address_of_success (env : DeployEnv) (d : DeploymentData) (name : String)
    (h : (submitPhase env d name).1.success = true) (hEA : d.expectedAddress.isSome = true) :
    ((submitPhase env d name).1.contractAddress).isSome = true := by
  rcases submitPhase_shape env d name with
    ⟨e, _, heq⟩ | ⟨hash, e, _, _, heq⟩ | ⟨hash, receipt, _, _, _, heq⟩ |
    ⟨hash, receipt, ca, evs2, _, _, _, hca, _, heq⟩
  · rw [heq] at h; exact absurd h (by simp)
  · rw [heq] at h; exact absurd h (by simp)
  · rw [heq] at h; exact absurd h (by simp)
  · rw [heq]
    have := hca hEA
    subst this
    simpa using hEA

/-- An RPC world where every bytecode read reports existing code and no
transaction is expected. -/
def envAlready : DeployEnv :=
  { getBytecode := fun _ _ => .ok (some "0x600160005500")
    sendTransaction := fun _ _ => .error (.network "unexpected send" none)
    waitForReceipt := fun _ => .error (.network "unexpected wait" none) }

/-- An artifact whose `codeHash` does not match the code deployed at its
expected address in `envAlready`. -/
def artifactBadHash : DeploymentData :=
  { toAddr := "0xce0042b868300000d44a59004da54a005ffdcf9f", data := "0xdeadbeef",
    expectedAddress := some "0xaaa",
    codeHash := some "0x1111111111111111111111111111111111111111111111111111111111111111" }

/-- An artifact already deployed at its expected address in `envAlready`. -/
def artifactAlready : DeploymentData :=
  { toAddr := "0xce0042b868300000d44a59004da54a005ffdcf9f", data := "0x604c",
    expectedAddress := some "0xbbb" }

/-- An artifact with an expected address, used with worlds that report no
pre-existing code. -/
def artifactFresh : DeploymentData :=
  { toAddr := "0xfactory", data := "0xdead", expectedAddress := some "0xaaa" }

/-- An artifact without an expected address. -/
def artifactNoExpected : DeploymentData :=
  { toAddr := "0xfactory", data := "0xd00d" }

/-- An RPC world for a clean successful deployment: no pre-existing code,
send succeeds, receipt confirms, verification read finds code. -/
def envFresh : DeployEnv :=
  { getBytecode := fun i _ => if i = 0 then .ok none else .ok (some "0x6001")
    sendTransaction := fun _ _ => .ok "0xhash1"
    waitForReceipt := fun _ =>
      .ok { status := .success, blockNumber := 7, gasUsed := 21000, contractAddress := none } }

/-- An RPC world where the transaction submission itself throws. -/
def envSendFail : DeployEnv :=
  { getBytecode := fun _ _ => .ok none
    sendTransaction := fun _ _ => .error (.validation "Invalid private key" (some "PRIVATE_KEY") none)
    waitForReceipt := fun _ => .error (.network "no receipt" none) }

/-- An RPC world where submission succeeds but waiting for the receipt
throws. -/
def envWaitFail : DeployEnv :=
  { getBytecode := fun _ _ => .ok none
    sendTransaction := fun _ _ => .ok "0xhash2"
    waitForReceipt := fun _ => .error (.network "connection reset" none) }

/-- An RPC world where the pre-submission bytecode read throws but the
deployment itself succeeds. -/
def envReadFail : DeployEnv :=
  { getBytecode := fun i _ =>
      if i = 0 then .error (.network "read failed" none) else .ok (some "0x6001")
    sendTransaction := fun _ _ => .ok "0xhash3"
    waitForReceipt := fun _ =>
      .ok { status := .success, blockNumber := 3, gasUsed := 50000, contractAddress := none } }

/-- An RPC world where the transaction confirms with a failed receipt. -/
def envFailedReceipt : DeployEnv :=
  { getBytecode := fun _ _ => .ok none
    sendTransaction := fun _ _ => .ok "0xhash4"
    waitForReceipt := fun _ =>
      .ok { status := .failed, blockNumber := 9, gasUsed := 100000, contractAddress := none } }

/-- C1: `deployBatch` produces exactly one result per artifact in the same
order (the j-th output is `deployContract` of the j-th artifact, so no
artifact's failure prevents later artifacts from being attempted), and any
exception thrown while processing an artifact is caught at the artifact
boundary and converted into a failure result carrying the formatted error. -/
theorem deploy_batch_order_and_failure_isolation :
    (∀ (env : Nat → DeployEnv) (artifacts : List (String × DeploymentData)),
       (deployBatch env artifacts).length = artifacts.length) ∧
    (∀ (env : Nat → DeployEnv) (artifacts : List (String × DeploymentData))
       (j : Nat) (h : j < artifacts.length) (h2 : j < (deployBatch env artifacts).length),
       (deployBatch env artifacts).get ⟨j, h2⟩ =
         deployContract (env j) (artifacts.get ⟨j, h⟩).2 (artifacts.get ⟨j, h⟩).1) ∧
    (∀ (env : DeployEnv) (d : DeploymentData) (name : String) (e : JsError),
       d.expectedAddress = none → env.sendTransaction d.toAddr d.data = .error e →
       deployContract env d name =
         ({ contractName := name, success := false, error := some (formatError e) }, [])) ∧
    (∀ (env : DeployEnv) (d : DeploymentData) (name hash : String) (e : JsError),
       d.expectedAddress = none → env.sendTransaction d.toAddr d.data = .ok hash →
       env.waitForReceipt hash = .error e →
       deployContract env d name =
         ({ contractName := name, success := false, txHash := some hash,
            error := some (formatError e) },
          [DeployEvent.txSent name d.toAddr d.data])) := by
  refine ⟨?_, ?_, ?_, ?_⟩
  · intro env artifacts
    exact deployBatchFrom_length env artifacts 0
  · intro env artifacts j h h2
    have := deployBatchFrom_get env artifacts 0 j h h2
    simpa using this
  · intro env d name e hEA hsend
    simp [deployContract, hEA, submitPhase, hsend]
  · intro env d name hash e hEA hsend hwait
    simp [deployContract, hEA, submitPhase, hsend, hwait]

/-- Witness for the batch ordering and failure-isolation theorem on a
concrete two-artifact batch whose first artifact fails. -/
theorem deploy_batch_order_witness :
    (deployBatch (fun _ => envSendFail)
        [("a", artifactNoExpected), ("b", artifactNoExpected)]).length = 2 ∧
    (deployBatch (fun _ => envSendFail)
        [("a", artifactNoExpected), ("b", artifactNoExpected)]).get ⟨1, by decide⟩ =
      deployContract envSendFail artifactNoExpected "b" ∧
    deployContract envSendFail artifactNoExpected "a" =
      ({ contractName := "a", success := false,
         error := some (formatError (.validation "Invalid private key" (some "PRIVATE_KEY") none)) }, []) ∧
    deployContract envWaitFail artifactNoExpected "b" =
      ({ contractName := "b", success := false, txHash := some "0xhash2",
         error := some (formatError (.network "connection reset" none)) },
       [DeployEvent.txSent "b" "0xfactory" "0xd00d"]) :=
  ⟨deploy_batch_order_and_failure_isolation.1 (fun _ => envSendFail) _,
   deploy_batch_order_and_failure_isolation.2.1 (fun _ => envSendFail) _ 1 (by decide) (by decide),
   deploy_batch_order_and_failure_isolation.2.2.1 envSendFail artifactNoExpected "a"
     (.validation "Invalid private key" (some "PRIVATE_KEY") none) rfl rfl,
   deploy_batch_order_and_failure_isolation.2.2.2 envWaitFail artifactNoExpected "b" "0xhash2"
     (.network "connection reset" none) rfl rfl rfl⟩

lemma deployContract_early (env : DeployEnv) (d : DeploymentData) (name addr : String)
    (ob : Option String) (hEA : d.expectedAddress = some addr)
    (hbc : env.getBytecode 0 addr = .ok ob) (hne : isNonEmptyBytecode ob = true) :
    deployContract env d name =
      ({ contractName := name, success := true, contractAddress := some addr,
         expectedAddress := some addr }, []) := by
  simp [deployContract, hEA, hbc, hne]

/-- C2: an artifact whose expected address holds non-empty bytecode is
reported as success with `contractAddress = expectedAddress` and no
transaction sent (empty event list); a failing existence read only prepends a
warning and proceeds to submission (never a hard error); and a batch in which
every artifact's expected address reports non-empty bytecode yields all
results successful with zero transactions sent. -/
theorem idempotency_check_behavior :
    (∀ (env : DeployEnv) (d : DeploymentData) (name addr : String) (ob : Option String),
       d.expectedAddress = some addr → env.getBytecode 0 addr = .ok ob →
       isNonEmptyBytecode ob = true →
       deployContract env d name =
         ({ contractName := name, success := true, contractAddress := some addr,
            expectedAddress := some addr }, [])) ∧
    (∀ (env : DeployEnv) (d : DeploymentData) (name addr : String) (ob : Option String),
       d.expectedAddress = some addr → env.getBytecode 0 addr = .ok ob →
       isNonEmptyBytecode ob = false →
       deployContract env d name = submitPhase env d name) ∧
    (∀ (env : DeployEnv) (d : DeploymentData) (name addr : String) (e : JsError),
       d.expectedAddress = some addr → env.getBytecode 0 addr = .error e →
       deployContract env d name =
         ((submitPhase env d name).1,
          DeployEvent.warnExistenceCheckFailed (formatError e) :: (submitPhase env d name).2)) ∧
    (∀ (env : Nat → DeployEnv) (artifacts : List (String × DeploymentData)),
       (∀ (j : Nat) (h : j < artifacts.length), ∃ addr ob,
          (artifacts.get ⟨j, h⟩).2.expectedAddress = some addr ∧
          (env j).getBytecode 0 addr = .ok ob ∧ isNonEmptyBytecode ob = true) →
       ∀ (j : Nat) (h2 : j < (deployBatch env artifacts).length),
         ((deployBatch env artifacts).get ⟨j, h2⟩).1.success = true ∧
         ∀ ev ∈ ((deployBatch env artifacts).get ⟨j, h2⟩).2, isTxSentEvent ev = false) := by
  refine ⟨deployContract_early, ?_, ?_, ?_⟩
  · intro env d name addr ob hEA hbc hne
    simp [deployContract, hEA, hbc, hne]
  · intro env d name addr e hEA hbc
    simp [deployContract, hEA, hbc]
  · intro env artifacts hall j h2
    have hlen : (deployBatch env artifacts).length = artifacts.length :=
      deployBatchFrom_length env artifacts 0
    have h : j < artifacts.length := by omega
    have hget : (deployBatch env artifacts).get ⟨j, h2⟩ =
        deployContract (env j) (artifacts.get ⟨j, h⟩).2 (artifacts.get ⟨j, h⟩).1 := by
      have := deployBatchFrom_get env artifacts 0 j h h2
      simpa using this
    obtain ⟨addr, ob, hEA, hbc, hne⟩ := hall j h
    rw [hget, deployContract_early (env j) _ _ addr ob hEA hbc hne]
    exact ⟨rfl, by intro ev hev; simp at hev⟩

/-- Witness for the idempotency-check theorem on concrete worlds: an
already-deployed artifact, a failing existence read, and a one-artifact
second-run batch. -/
theorem idempotency_check_behavior_witness :
    (deployContract envAlready artifactFresh "m" =
      ({ contractName := "m", success := true, contractAddress := some "0xaaa",
         expectedAddress := some "0xaaa" }, [])) ∧
    (deployContract envFresh artifactFresh "m" = submitPhase envFresh artifactFresh "m") ∧
    (deployContract envReadFail artifactFresh "m" =
      ((submitPhase envReadFail artifactFresh "m").1,
       DeployEvent.warnExistenceCheckFailed (formatError (.network "read failed" none)) ::
         (submitPhase envReadFail artifactFresh "m").2)) ∧
    (((deployBatch (fun _ => envAlready) [("m", artifactFresh)]).get ⟨0, by decide⟩).1.success = true ∧
      ∀ ev ∈ ((deployBatch (fun _ => envAlready) [("m", artifactFresh)]).get ⟨0, by decide⟩).2,
        isTxSentEvent ev = false) :=
  ⟨idempotency_check_behavior.1 envAlready artifactFresh "m" "0xaaa"
     (some "0x600160005500") rfl rfl rfl,
   idempotency_check_behavior.2.1 envFresh artifactFresh "m" "0xaaa" none rfl rfl rfl,
   idempotency_check_behavior.2.2.1 envReadFail artifactFresh "m" "0xaaa"
     (.network "read failed" none) rfl rfl,
   idempotency_check_behavior.2.2.2 (fun _ => envAlready) [("m", artifactFresh)]
     (by intro j h
         cases j with
         | zero => exact ⟨"0xaaa", some "0x600160005500", rfl, rfl, rfl⟩
         | succ k => simp at h)
     0 (by decide)⟩

/-- A receipt with failed status makes `submitPhase` return a failure with
the exact error message `Transaction failed`. -/
lemma submitPhase_failed_receipt (env : DeployEnv) (d : DeploymentData) (name hash : String)
    (receipt : Receipt)
    (hsend : env.sendTransaction d.toAddr d.data = .ok hash)
    (hwait : env.waitForReceipt hash = .ok receipt)
    (hstat : receipt.status = .failed) :
    (submitPhase env d name).1.success = false ∧
    (submitPhase env d name).1.error = some "Transaction failed" := by
  rcases submitPhase_shape env d name with
    ⟨e, hs, heq⟩ | ⟨hash2, e, hs, hw, heq⟩ | ⟨hash2, receipt2, hs, hw, hst, heq⟩ |
    ⟨hash2, receipt2, ca, evs2, hs, hw, hst, _, _, heq⟩
  · rw [hsend] at hs; exact Except.noConfusion hs
  · rw [hsend] at hs
    injection hs with hh
    subst hh
    rw [hwait] at hw
    exact Except.noConfusion hw
  · rw [heq]; exact ⟨rfl, rfl⟩
  · rw [hsend] at hs
    injection hs with hh
    subst hh
    rw [hwait] at hw
    injection hw with hr
    subst hr
    rw [hstat] at hst
    exact TxStatus.noConfusion hst

/-- C7: every `deployContract` result satisfies: failure implies an error
message is set; success with an expected address implies a contract address
is resolved; and a receipt with failed status yields a failure whose error is
exactly `Transaction failed`. -/
theorem deployment_result_invariants (env : DeployEnv) (d : DeploymentData) (name : String) :
    ((deployContract env d name).1.success = false →
      ((deployContract env d name).1.error).isSome = true) ∧
    ((deployContract env d name).1.success = true → d.expectedAddress.isSome = true →
      ((deployContract env d name).1.contractAddress).isSome = true) ∧
    (∀ (hash : String) (receipt : Receipt),
      alreadyDeployedCheck env d = false →
      env.sendTransaction d.toAddr d.data = .ok hash →
      env.waitForReceipt hash = .ok receipt →
      receipt.status = .failed →
      (deployContract env d name).1.success = false ∧
      (deployContract env d name).1.error = some "Transaction failed") := by
  rcases deployContract_shape env d name with ⟨addr, ob, hEA, hbc, hne, heq⟩ | ⟨evs0, hevs0, heq⟩
  · refine ⟨?_, ?_, ?_⟩
    · rw [heq]; intro h; exact absurd h (by simp)
    · rw [heq]; intro _ _; rfl
    · intro hash receipt hadc _ _ _
      simp [alreadyDeployedCheck, hEA, hbc, hne] at hadc
  · refine ⟨?_, ?_, ?_⟩
    · rw [heq]; exact submitPhase_error_of_failure env d name
    · rw [heq]; exact submitPhase_address_of_success env d name
    · intro hash receipt _ hsend hwait hstat
      rw [heq]
      exact submitPhase_failed_receipt env d name hash receipt hsend hwait hstat

/-- Witness for the result invariants applied to a concrete world whose
receipt reports failed status. -/
theorem deployment_result_invariants_witness :
    (deployContract envFailedReceipt artifactNoExpected "m").1.success = false ∧
    (deployContract envFailedReceipt artifactNoExpected "m").1.error = some "Transaction failed" :=
  (deployment_result_invariants envFailedReceipt artifactNoExpected "m").2.2 "0xhash4"
    { status := .failed, blockNumber := 9, gasUsed := 100000, contractAddress := none }
    rfl rfl rfl rfl

/-- C5 (counterexample): an artifact found already deployed whose `codeHash`
differs from the hash of the on-chain code is reported as success with an
empty event list — no code-hash comparison happens and no mismatch warning of
any kind is emitted, contradicting the claim. -/
theorem codehash_mismatch_unflagged :
    deployContract envAlready artifactBadHash "social-recovery-0.1.0" =
      ({ contractName := "social-recovery-0.1.0", success := true,
         contractAddress := some "0xaaa", expectedAddress := some "0xaaa" }, []) := by
  rfl

/-- C5 (amended): `deployContract` never consults `codeHash` — its behavior
is identical for any two values of the field — and an artifact found already
deployed is reported as success with no events (hence no mismatch warning). -/
theorem codehash_never_consulted :
    (∀ (env : DeployEnv) (d : DeploymentData) (name : String) (h1 h2 : Option String),
       deployContract env { d with codeHash := h1 } name =
         deployContract env { d with codeHash := h2 } name) ∧
    (∀ (env : DeployEnv) (d : DeploymentData) (name : String),
       alreadyDeployedCheck env d = true →
       (deployContract env d name).1.success = true ∧
       (deployContract env d name).2 = []) := by
  constructor
  · intro env d name h1 h2
    cases d
    rfl
  · intro env d name hadc
    cases hEA : d.expectedAddress with
    | none => simp [alreadyDeployedCheck, hEA] at hadc
    | some addr =>
      cases hbc : env.getBytecode 0 addr with
      | error e => simp [alreadyDeployedCheck, hEA, hbc] at hadc
      | ok ob =>
        have hne : isNonEmptyBytecode ob = true := by
          simpa [alreadyDeployedCheck, hEA, hbc] using hadc
        rw [deployContract_early env d name addr ob hEA hbc hne]
        exact ⟨rfl, rfl⟩

/-- Witness for the amended code-hash theorem at the concrete mismatching
artifact. -/
theorem codehash_never_consulted_witness :
    (deployContract envAlready
        { artifactBadHash with codeHash := some "0x1111111111111111111111111111111111111111111111111111111111111111" }
        "social-recovery-0.1.0" =
      deployContract envAlready { artifactBadHash with codeHash := none } "social-recovery-0.1.0") ∧
    ((deployContract envAlready artifactBadHash "social-recovery-0.1.0").1.success = true ∧
     (deployContract envAlready artifactBadHash "social-recovery-0.1.0").2 = []) :=
  ⟨codehash_never_consulted.1 envAlready artifactBadHash "social-recovery-0.1.0"
     (some "0x1111111111111111111111111111111111111111111111111111111111111111") none,
   codehash_never_consulted.2 envAlready artifactBadHash "social-recovery-0.1.0" rfl⟩

/-- C6 (counterexample): an artifact found already deployed yields a success
result whose event list is empty — no durable record is handed to the result
sink, contradicting the claim that every success (including already-deployed
ones) is persisted. -/
theorem already_deployed_success_not_persisted :
    deployBatch (fun _ => envAlready) [("allowance-0.1.1", artifactAlready)] =
      [({ contractName := "allowance-0.1.1", success := true,
          contractAddress := some "0xbbb", expectedAddress := some "0xbbb" }, [])] := by
  rfl

/-- C6 (amended): within each artifact's own processing (hence before the
next artifact is attempted), a success that went through a submitted
transaction always writes a durable record, while a success produced by the
already-deployed check writes none. -/
theorem success_persisted_iff_transaction :
    ∀ (env : Nat → DeployEnv) (artifacts : List (String × DeploymentData))
      (j : Nat) (h2 : j < (deployBatch env artifacts).length),
      (((deployBatch env artifacts).get ⟨j, h2⟩).1.success = true →
        (((deployBatch env artifacts).get ⟨j, h2⟩).1.txHash).isSome = true →
        ((deployBatch env artifacts).get ⟨j, h2⟩).2.any isSaveEvent = true) ∧
      (((deployBatch env artifacts).get ⟨j, h2⟩).1.success = true →
        ((deployBatch env artifacts).get ⟨j, h2⟩).1.txHash = none →
        ((deployBatch env artifacts).get ⟨j, h2⟩).2.any isSaveEvent = false) := by
  intro env artifacts j h2
  have hlen : (deployBatch env artifacts).length = artifacts.length :=
    deployBatchFrom_length env artifacts 0
  have h : j < artifacts.length := by omega
  have hget : (deployBatch env artifacts).get ⟨j, h2⟩ =
      deployContract (env j) (artifacts.get ⟨j, h⟩).2 (artifacts.get ⟨j, h⟩).1 := by
    have := deployBatchFrom_get env artifacts 0 j h h2
    simpa using this
  rw [hget]
  have hiff := deployContract_save_iff (env j) (artifacts.get ⟨j, h⟩).2 (artifacts.get ⟨j, h⟩).1
  constructor
  · intro hsucc htx
    rw [hiff, hsucc, htx]
    rfl
  · intro hsucc htx
    rw [hiff, hsucc, htx]
    rfl

/-- Witness for the persistence theorem: a confirmed fresh deployment writes
a record, an already-deployed skip does not. -/
theorem success_persisted_iff_transaction_witness :
    ((deployBatch (fun _ => envFresh) [("m", artifactFresh)]).get ⟨0, by decide⟩).2.any
        isSaveEvent = true ∧
    ((deployBatch (fun _ => envAlready) [("m", artifactFresh)]).get ⟨0, by decide⟩).2.any
        isSaveEvent = false :=
  ⟨(success_persisted_iff_transaction (fun _ => envFresh) [("m", artifactFresh)] 0 (by decide)).1
      (by rfl) (by rfl),
   (success_persisted_iff_transaction (fun _ => envAlready) [("m", artifactFresh)] 0 (by decide)).2
      (by rfl) (by rfl)⟩
